import Mathlib

/-!
Shallow embedding of `src/index.js` of the a11y-mcp repository: an MCP server
exposing two tools, `audit_webpage` and `get_summary`, which drive a headless
browser (puppeteer) and the axe-core rule engine and reshape the raw results.

The external collaborators (puppeteer, axe, `JSON.stringify`, `Date`) are
modelled as an environment `Env` of fallible steps; the handler bodies
`auditWebpage` and `getSummary` are translated statement by statement from the
source, threading an explicit `CallTrace` that records whether the browser was
launched, whether `browser.close()` was reached, and with which options the
rule engine was invoked.
-/

/-- A thrown JavaScript error, of which the handlers only use `.message`. -/
structure JsError where
  message : String
deriving DecidableEq

/-- The MCP SDK error codes used by `src/index.js`. -/
inductive ErrorCode where
  | invalidParams
  | methodNotFound
deriving DecidableEq

/-- The `McpError(code, message)` value: a protocol-level fault thrown to the SDK. -/
structure McpError where
  code : ErrorCode
  message : String
deriving DecidableEq

/-- One entry of a tool response's `content` array (always `type: 'text'`). -/
structure TextContent where
  type : String
  text : String
deriving DecidableEq

/-- A normal tool response: a `content` array and an optional `isError` flag
(the flag is a field that is simply absent on success, hence `Option`). -/
structure ToolResponse where
  content : List TextContent
  isError : Option Bool
deriving DecidableEq

/-- A raw axe node descriptor: the fields read by the handler. `html` is the
raw markup snippet; `impact` and `failureSummary` may be null. -/
structure AxeNode where
  impact : Option String
  target : List String
  failureSummary : Option String
  html : Option String
deriving DecidableEq

/-- A raw axe violation: the fields read by the handler. `impact` is the
engine's severity classification, possibly null. -/
structure AxeViolation where
  id : String
  impact : Option String
  description : String
  helpUrl : String
  nodes : List AxeNode
deriving DecidableEq

/-- A raw axe result tree. The handler only takes `.length` of `passes`,
`incomplete` and `inapplicable`, so their entries are modelled opaquely. -/
structure AxeResults where
  violations : List AxeViolation
  passes : List Unit
  incomplete : List Unit
  inapplicable : List Unit
deriving DecidableEq

/-- The `request.params.arguments` object for either tool: every field is
optional at the JavaScript level. -/
structure ToolArgs where
  url : Option String
  includeHtml : Option Bool
  tags : Option (List String)
deriving DecidableEq

/-- The `runOnly` member of the axe options object. -/
structure RunOnly where
  type : String
  values : List String
deriving DecidableEq

/-- The axe options object handed to `AxePuppeteer.options`; `{}` is
`runOnly := none`. -/
structure AxeOptions where
  runOnly : Option RunOnly
deriving DecidableEq

/-- A formatted node of the detailed report; `html` is present only when
requested. -/
structure FormattedNode where
  impact : Option String
  target : List String
  failureSummary : Option String
  html : Option String
deriving DecidableEq

/-- A formatted violation of the detailed report. -/
structure FormattedViolation where
  id : String
  impact : Option String
  description : String
  helpUrl : String
  nodes : List FormattedNode
deriving DecidableEq

/-- The `formattedResults` object built by `auditWebpage`. -/
structure FormattedResults where
  url : String
  timestamp : String
  violations : List FormattedViolation
  passes : Nat
  incomplete : Nat
  inapplicable : Nat
deriving DecidableEq

/-- The `issuesBySeverity` object of the summary. -/
structure IssuesBySeverity where
  critical : Nat
  serious : Nat
  moderate : Nat
  minor : Nat
deriving DecidableEq

/-- One entry of the summary's `topIssues` array. -/
structure TopIssue where
  id : String
  impact : Option String
  description : String
  helpUrl : String
deriving DecidableEq

/-- The `summary` object built by `getSummary`. -/
structure Summary where
  url : String
  timestamp : String
  totalIssues : Nat
  issuesBySeverity : IssuesBySeverity
  topIssues : List TopIssue
  passedTests : Nat
  incompleteTests : Nat
deriving DecidableEq

/-- The external world of one handler call: each puppeteer step may throw,
`analyze` is a function of the options it is invoked with, `timestamp` is
`new Date().toISOString()`, and the two stringify fields stand for
`JSON.stringify` on the two result shapes. -/
structure Env where
  launch : Except JsError Unit
  newPage : Except JsError Unit
  setViewport : Nat → Nat → Except JsError Unit
  goto : String → Nat → Except JsError Unit
  analyze : AxeOptions → Except JsError AxeResults
  close : Except JsError Unit
  timestamp : String
  stringifyReport : FormattedResults → String
  stringifySummary : Summary → String

/-- What one handler call did with the browser session: whether
`puppeteer.launch` succeeded, whether `browser.close()` was reached, and the
options of the `analyze` call when one was made. -/
structure CallTrace where
  launched : Bool
  closeCalled : Bool
  analyzeOpts : Option AxeOptions
deriving DecidableEq

/-- JavaScript truthiness of `args.url`: `!args.url` holds exactly when the
value is absent (`undefined`) or the empty string. -/
def urlTruthy : Option String → Bool
  | none => false
  | some s => !s.isEmpty

/-- JavaScript truthiness of `args.includeHtml` (a missing field is falsy). -/
def boolTruthy : Option Bool → Bool
  | none => false
  | some b => b

/-- The guard `args.tags && args.tags.length > 0`: an array is always truthy in
JavaScript, so the condition holds iff `tags` is present and non-empty. -/
def tagsNonempty : Option (List String) → Bool
  | none => false
  | some l => decide (0 < l.length)

/-- The `axeOptions` object built by `auditWebpage`: `runOnly` is set iff
`tags` is present and non-empty. -/
def axeOptionsOf (args : ToolArgs) : AxeOptions :=
  if tagsNonempty args.tags then
    { runOnly := some { type := "tag", values := args.tags.getD [] } }
  else
    { runOnly := none }

/-- The `formattedNode` object: `impact`, `target`, `failureSummary` copied,
and `html` added only when `includeHtml` is truthy. -/
def formattedNodeOf (includeHtml : Bool) (node : AxeNode) : FormattedNode :=
  { impact := node.impact
    target := node.target
    failureSummary := node.failureSummary
    html := if includeHtml then node.html else none }

/-- The `formattedViolation` object: scalar fields copied and `nodes` mapped
through `formattedNodeOf`. -/
def formattedViolationOf (includeHtml : Bool) (v : AxeViolation) : FormattedViolation :=
  { id := v.id
    impact := v.impact
    description := v.description
    helpUrl := v.helpUrl
    nodes := v.nodes.map (formattedNodeOf includeHtml) }

/-- The `formattedResults` object of `auditWebpage`. On the path that builds
it `args.url` is a present non-empty string, so the `getD` default is never
exercised. -/
def formattedResultsOf (args : ToolArgs) (timestamp : String) (results : AxeResults) :
    FormattedResults :=
  { url := args.url.getD ""
    timestamp := timestamp
    violations := results.violations.map (formattedViolationOf (boolTruthy args.includeHtml))
    passes := results.passes.length
    incomplete := results.incomplete.length
    inapplicable := results.inapplicable.length }

/-- The `impactOrder` lookup object of `getSummary`:
`{ critical: 0, serious: 1, moderate: 2, minor: 3 }`; any other key misses. -/
def impactOrder : String → Option Nat
  | "critical" => some 0
  | "serious" => some 1
  | "moderate" => some 2
  | "minor" => some 3
  | _ => none

/-- The lookup `impactOrder[v.impact]`: a null impact, like an unrecognized string,
misses the lookup object. -/
def impactRank (i : Option String) : Option Nat :=
  i.bind impactOrder

/-- The sort comparator `impactOrder[a.impact] - impactOrder[b.impact]` as a
total boolean order. When either lookup misses, the JavaScript comparator
returns `NaN` and ECMAScript leaves the relative order of such elements
implementation-defined; the model totalizes the comparator by ranking
unrecognized impacts after `minor`. On violations whose impacts are all
recognized — the only case the ordering claims are stated for — the model
agrees exactly with the comparator, and `List.mergeSort` matches the
stability that ECMAScript guarantees for `Array.prototype.sort`. -/
def impactLe (a b : AxeViolation) : Bool :=
  decide ((impactRank a.impact).getD 4 ≤ (impactRank b.impact).getD 4)

/-- One entry of `topIssues`: the four scalar fields of a violation. -/
def topIssueOf (v : AxeViolation) : TopIssue :=
  { id := v.id
    impact := v.impact
    description := v.description
    helpUrl := v.helpUrl }

/-- The `summary` object of `getSummary`: total count, per-severity counts by
exact string comparison, and the top five violations after a stable sort by
`impactLe`. -/
def summaryOf (url : String) (timestamp : String) (results : AxeResults) : Summary :=
  { url := url
    timestamp := timestamp
    totalIssues := results.violations.length
    issuesBySeverity :=
      { critical := (results.violations.filter (fun v => v.impact == some "critical")).length
        serious := (results.violations.filter (fun v => v.impact == some "serious")).length
        moderate := (results.violations.filter (fun v => v.impact == some "moderate")).length
        minor := (results.violations.filter (fun v => v.impact == some "minor")).length }
    topIssues := ((results.violations.mergeSort impactLe).take 5).map topIssueOf
    passedTests := results.passes.length
    incompleteTests := results.incomplete.length }

/-- The `try` block of `auditWebpage`: launch, new page, viewport, navigation
with a 30000 ms timeout, `analyze` with the tag options, `close`, then the
success response. The first throwing step aborts the block with its error. -/
def auditTryBlock (env : Env) (args : ToolArgs) : Except JsError ToolResponse × CallTrace :=
  match env.launch with
  | Except.error e => (Except.error e, ⟨false, false, none⟩)
  | Except.ok _ =>
    match env.newPage with
    | Except.error e => (Except.error e, ⟨true, false, none⟩)
    | Except.ok _ =>
      match env.setViewport 1280 800 with
      | Except.error e => (Except.error e, ⟨true, false, none⟩)
      | Except.ok _ =>
        match env.goto (args.url.getD "") 30000 with
        | Except.error e => (Except.error e, ⟨true, false, none⟩)
        | Except.ok _ =>
          match env.analyze (axeOptionsOf args) with
          | Except.error e => (Except.error e, ⟨true, false, some (axeOptionsOf args)⟩)
          | Except.ok results =>
            match env.close with
            | Except.error e => (Except.error e, ⟨true, true, some (axeOptionsOf args)⟩)
            | Except.ok _ =>
              (Except.ok
                { content := [{ type := "text"
                                text := env.stringifyReport
                                  (formattedResultsOf args env.timestamp results) }]
                  isError := none },
               ⟨true, true, some (axeOptionsOf args)⟩)

/-- The `auditWebpage` handler: the missing-`url` guard throws a protocol
fault before the `try` block; any error thrown inside the block is caught and
turned into a normal response flagged `isError` with the fixed prefix. -/
def auditWebpage (env : Env) (args : ToolArgs) : Except McpError ToolResponse × CallTrace :=
  if !urlTruthy args.url then
    (Except.error { code := ErrorCode.invalidParams, message := "URL is required" },
     ⟨false, false, none⟩)
  else
    match auditTryBlock env args with
    | (Except.ok resp, tr) => (Except.ok resp, tr)
    | (Except.error e, tr) =>
      (Except.ok
        { content := [{ type := "text", text := "Error auditing webpage: " ++ e.message }]
          isError := some true },
       tr)

/-- The `try` block of `getSummary`: identical browser steps, but `analyze`
is invoked with no options object at all, i.e. unfiltered. -/
def summaryTryBlock (env : Env) (args : ToolArgs) : Except JsError ToolResponse × CallTrace :=
  match env.launch with
  | Except.error e => (Except.error e, ⟨false, false, none⟩)
  | Except.ok _ =>
    match env.newPage with
    | Except.error e => (Except.error e, ⟨true, false, none⟩)
    | Except.ok _ =>
      match env.setViewport 1280 800 with
      | Except.error e => (Except.error e, ⟨true, false, none⟩)
      | Except.ok _ =>
        match env.goto (args.url.getD "") 30000 with
        | Except.error e => (Except.error e, ⟨true, false, none⟩)
        | Except.ok _ =>
          match env.analyze { runOnly := none } with
          | Except.error e => (Except.error e, ⟨true, false, some { runOnly := none }⟩)
          | Except.ok results =>
            match env.close with
            | Except.error e => (Except.error e, ⟨true, true, some { runOnly := none }⟩)
            | Except.ok _ =>
              (Except.ok
                { content := [{ type := "text"
                                text := env.stringifySummary
                                  (summaryOf (args.url.getD "") env.timestamp results) }]
                  isError := none },
               ⟨true, true, some { runOnly := none }⟩)

/-- The `getSummary` handler: same guard and catch structure as
`auditWebpage`, with its own error prefix. -/
def getSummary (env : Env) (args : ToolArgs) : Except McpError ToolResponse × CallTrace :=
  if !urlTruthy args.url then
    (Except.error { code := ErrorCode.invalidParams, message := "URL is required" },
     ⟨false, false, none⟩)
  else
    match summaryTryBlock env args with
    | (Except.ok resp, tr) => (Except.ok resp, tr)
    | (Except.error e, tr) =>
      (Except.ok
        { content := [{ type := "text", text := "Error getting summary: " ++ e.message }]
          isError := some true },
       tr)

/-! ### Sample data used by witnesses and counterexamples -/

/-- An environment in which every browser step succeeds and the engine
returns the given results. -/
def okEnv (results : AxeResults) : Env :=
  { launch := Except.ok ()
    newPage := Except.ok ()
    setViewport := fun _ _ => Except.ok ()
    goto := fun _ _ => Except.ok ()
    analyze := fun _ => Except.ok results
    close := Except.ok ()
    timestamp := "2026-01-01T00:00:00.000Z"
    stringifyReport := fun _ => ""
    stringifySummary := fun _ => "" }

/-- An environment in which the rule-engine evaluation throws after a
successful launch and navigation. -/
def analyzeFailEnv : Env :=
  { launch := Except.ok ()
    newPage := Except.ok ()
    setViewport := fun _ _ => Except.ok ()
    goto := fun _ _ => Except.ok ()
    analyze := fun _ => Except.error { message := "axe crashed" }
    close := Except.ok ()
    timestamp := "2026-01-01T00:00:00.000Z"
    stringifyReport := fun _ => ""
    stringifySummary := fun _ => "" }

/-- A request carrying only a `url`. -/
def argsA : ToolArgs :=
  { url := some "https://example.com", includeHtml := none, tags := none }

/-- A request with the same `url` but different `includeHtml` and `tags`. -/
def argsB : ToolArgs :=
  { url := some "https://example.com", includeHtml := some true, tags := some ["wcag2aa"] }

/-- A raw result tree with no violations. -/
def emptyResults : AxeResults :=
  { violations := [], passes := [], incomplete := [], inapplicable := [] }

/-! ### Claims -/

/-- Claim C2: a request whose parameter object has no `url` value makes both
operations throw the protocol-level invalid-parameters fault, and the trace
shows no browser session was launched. -/
theorem missing_url_faults_before_launch (env : Env) (args : ToolArgs)
    (h : args.url = none) :
    auditWebpage env args =
      (Except.error { code := ErrorCode.invalidParams, message := "URL is required" },
       ⟨false, false, none⟩) ∧
    getSummary env args =
      (Except.error { code := ErrorCode.invalidParams, message := "URL is required" },
       ⟨false, false, none⟩) := by
  constructor <;> simp [auditWebpage, getSummary, urlTruthy, h]

/-- Witness for C2 at a concrete request with `url` absent. -/
theorem missing_url_faults_before_launch_witness :
    ({ url := none, includeHtml := none, tags := none : ToolArgs }).url = none ∧
    auditWebpage (okEnv emptyResults) { url := none, includeHtml := none, tags := none } =
      (Except.error { code := ErrorCode.invalidParams, message := "URL is required" },
       ⟨false, false, none⟩) :=
  ⟨rfl, (missing_url_faults_before_launch (okEnv emptyResults)
      { url := none, includeHtml := none, tags := none } rfl).1⟩

/-- Claim C10: a request whose `url` is present but equal to the empty string
is rejected by the same truthiness guard: both operations throw the identical
invalid-parameters fault and no browser session is launched. -/
theorem empty_url_faults_like_missing (env : Env) (args : ToolArgs)
    (h : args.url = some "") :
    auditWebpage env args =
      (Except.error { code := ErrorCode.invalidParams, message := "URL is required" },
       ⟨false, false, none⟩) ∧
    getSummary env args =
      (Except.error { code := ErrorCode.invalidParams, message := "URL is required" },
       ⟨false, false, none⟩) := by
  constructor <;>
    simp [auditWebpage, getSummary, urlTruthy, h, show "".isEmpty = true from rfl]

/-- Witness for C10 at a concrete request with `url = ""`. -/
theorem empty_url_faults_like_missing_witness :
    ({ url := some "", includeHtml := none, tags := none : ToolArgs }).url = some "" ∧
    getSummary (okEnv emptyResults) { url := some "", includeHtml := none, tags := none } =
      (Except.error { code := ErrorCode.invalidParams, message := "URL is required" },
       ⟨false, false, none⟩) :=
  ⟨rfl, (empty_url_faults_like_missing (okEnv emptyResults)
      { url := some "", includeHtml := none, tags := none } rfl).2⟩

/-- With a truthy `url` the audit handler's trace is its `try` block's trace:
the catch clause does not touch the browser session. -/
theorem audit_trace_eq (env : Env) (args : ToolArgs) (hu : urlTruthy args.url = true) :
    (auditWebpage env args).2 = (auditTryBlock env args).2 := by
  simp only [auditWebpage, hu, Bool.not_true, Bool.false_eq_true, if_false]
  rcases h : auditTryBlock env args with ⟨res, tr⟩
  cases res <;> simp

/-- With a truthy `url` the summary handler's trace is its `try` block's
trace. -/
theorem summary_trace_eq (env : Env) (args : ToolArgs) (hu : urlTruthy args.url = true) :
    (getSummary env args).2 = (summaryTryBlock env args).2 := by
  simp only [getSummary, hu, Bool.not_true, Bool.false_eq_true, if_false]
  rcases h : summaryTryBlock env args with ⟨res, tr⟩
  cases res <;> simp

/-- Claim C1, amended: with a truthy `url`, `browser.close()` is reached if
and only if launch, page creation, viewport setup, navigation and the
rule-engine evaluation all succeed; when a step after launch throws — the
rule-engine evaluation included — the operation returns without closing the
session. Stated for both operations. -/
theorem close_called_iff_steps_succeed (env : Env) (args : ToolArgs)
    (hu : urlTruthy args.url = true) :
    ((auditWebpage env args).2.closeCalled = true ↔
      env.launch = Except.ok () ∧ env.newPage = Except.ok () ∧
      env.setViewport 1280 800 = Except.ok () ∧
      env.goto (args.url.getD "") 30000 = Except.ok () ∧
      ∃ results, env.analyze (axeOptionsOf args) = Except.ok results) ∧
    ((getSummary env args).2.closeCalled = true ↔
      env.launch = Except.ok () ∧ env.newPage = Except.ok () ∧
      env.setViewport 1280 800 = Except.ok () ∧
      env.goto (args.url.getD "") 30000 = Except.ok () ∧
      ∃ results, env.analyze { runOnly := none } = Except.ok results) := by
  rw [audit_trace_eq env args hu, summary_trace_eq env args hu]
  constructor
  · unfold auditTryBlock
    cases h1 : env.launch <;> simp [h1]
    cases h2 : env.newPage <;> simp [h2]
    cases h3 : env.setViewport 1280 800 <;> simp [h3]
    cases h4 : env.goto (args.url.getD "") 30000 <;> simp [h4]
    cases h5 : env.analyze (axeOptionsOf args) <;> simp [h5]
    cases h6 : env.close <;> simp [h6]
  · unfold summaryTryBlock
    cases h1 : env.launch <;> simp [h1]
    cases h2 : env.newPage <;> simp [h2]
    cases h3 : env.setViewport 1280 800 <;> simp [h3]
    cases h4 : env.goto (args.url.getD "") 30000 <;> simp [h4]
    cases h5 : env.analyze { runOnly := none } <;> simp [h5]
    cases h6 : env.close <;> simp [h6]

/-- Witness for the amended C1: in an all-success environment the audit call
reaches `browser.close()`. -/
theorem close_called_iff_steps_succeed_witness :
    urlTruthy argsA.url = true ∧
    ((auditWebpage (okEnv emptyResults) argsA).2.closeCalled = true ↔
      (okEnv emptyResults).launch = Except.ok () ∧
      (okEnv emptyResults).newPage = Except.ok () ∧
      (okEnv emptyResults).setViewport 1280 800 = Except.ok () ∧
      (okEnv emptyResults).goto (argsA.url.getD "") 30000 = Except.ok () ∧
      ∃ results, (okEnv emptyResults).analyze (axeOptionsOf argsA) = Except.ok results) :=
  ⟨by decide, (close_called_iff_steps_succeed (okEnv emptyResults) argsA (by decide)).1⟩

/-- Counterexample to claim C1 as stated: with launch and navigation
succeeding and the rule-engine evaluation throwing, the audit call launches a
browser session, returns a caught error response, and never reaches
`browser.close()` — the session is leaked. -/
theorem browser_leaked_when_analyze_throws :
    (auditWebpage analyzeFailEnv argsA).2.launched = true ∧
    (auditWebpage analyzeFailEnv argsA).2.closeCalled = false ∧
    (auditWebpage analyzeFailEnv argsA).1 =
      Except.ok { content := [{ type := "text", text := "Error auditing webpage: axe crashed" }]
                  isError := some true } :=
  ⟨rfl, rfl, rfl⟩

/-- Claim C3: with a truthy `url` neither operation ever produces a
protocol-level fault; a failure thrown anywhere in the `try` block is caught
and becomes a normal response flagged `isError: true` whose text is exactly
the fixed prefix followed by the failure's message; and a failure of launch,
of navigation (the step bounded by the 30000 ms timeout), or of the
rule-engine evaluation is such a `try`-block failure. -/
theorem operational_failures_are_caught (env : Env) (args : ToolArgs) (e : JsError)
    (hu : urlTruthy args.url = true) :
    (∃ r, (auditWebpage env args).1 = Except.ok r) ∧
    (∃ r, (getSummary env args).1 = Except.ok r) ∧
    ((auditTryBlock env args).1 = Except.error e →
      (auditWebpage env args).1 =
        Except.ok { content := [{ type := "text",
                                  text := "Error auditing webpage: " ++ e.message }]
                    isError := some true }) ∧
    ((summaryTryBlock env args).1 = Except.error e →
      (getSummary env args).1 =
        Except.ok { content := [{ type := "text",
                                  text := "Error getting summary: " ++ e.message }]
                    isError := some true }) ∧
    (env.launch = Except.error e →
      (auditTryBlock env args).1 = Except.error e ∧
      (summaryTryBlock env args).1 = Except.error e) ∧
    (env.launch = Except.ok () → env.newPage = Except.ok () →
      env.setViewport 1280 800 = Except.ok () →
      env.goto (args.url.getD "") 30000 = Except.error e →
      (auditTryBlock env args).1 = Except.error e ∧
      (summaryTryBlock env args).1 = Except.error e) ∧
    (env.launch = Except.ok () → env.newPage = Except.ok () →
      env.setViewport 1280 800 = Except.ok () →
      env.goto (args.url.getD "") 30000 = Except.ok () →
      (env.analyze (axeOptionsOf args) = Except.error e →
        (auditTryBlock env args).1 = Except.error e) ∧
      (env.analyze { runOnly := none } = Except.error e →
        (summaryTryBlock env args).1 = Except.error e)) := by
  refine ⟨?_, ?_, ?_, ?_, ?_, ?_, ?_⟩
  · rcases h : auditTryBlock env args with ⟨res, tr⟩
    cases res <;> simp [auditWebpage, hu, h]
  · rcases h : summaryTryBlock env args with ⟨res, tr⟩
    cases res <;> simp [getSummary, hu, h]
  · intro h
    rcases hp : auditTryBlock env args with ⟨res, tr⟩
    rw [hp] at h
    cases res with
    | error e' => cases h; simp [auditWebpage, hu, hp]
    | ok r => simp at h
  · intro h
    rcases hp : summaryTryBlock env args with ⟨res, tr⟩
    rw [hp] at h
    cases res with
    | error e' => cases h; simp [getSummary, hu, hp]
    | ok r => simp at h
  · intro h1
    constructor <;> simp [auditTryBlock, summaryTryBlock, h1]
  · intro h1 h2 h3 h4
    constructor <;> simp [auditTryBlock, summaryTryBlock, h1, h2, h3, h4]
  · intro h1 h2 h3 h4
    constructor <;> intro h5 <;>
      simp [auditTryBlock, summaryTryBlock, h1, h2, h3, h4, h5]

/-- An environment whose navigation step throws the timeout error. -/
def gotoFailEnv : Env :=
  { okEnv emptyResults with
    goto := fun _ _ => Except.error { message := "Navigation timeout of 30000 ms exceeded" } }

/-- Witness for C3: a navigation timeout is returned as an error-flagged
response with the exact prefix, not as a fault. -/
theorem operational_failures_are_caught_witness :
    urlTruthy argsA.url = true ∧
    (auditWebpage gotoFailEnv argsA).1 =
      Except.ok
        { content := [{ type := "text"
                        text := "Error auditing webpage: Navigation timeout of 30000 ms exceeded" }]
          isError := some true } :=
  ⟨by decide, (operational_failures_are_caught gotoFailEnv argsA
      { message := "Navigation timeout of 30000 ms exceeded" } (by decide)).2.2.1 rfl⟩

/-- The four severity strings recognized by the summary's bucket filters. -/
def recognizedSeverity (i : Option String) : Bool :=
  i == some "critical" || i == some "serious" || i == some "moderate" || i == some "minor"

/-- Bucket counting over a violation list: the four bucket counts sum to at
most the list length, with equality iff every violation is recognized. -/
theorem bucket_sum_aux (l : List AxeViolation) :
    ((l.filter fun v => v.impact == some "critical").length +
     (l.filter fun v => v.impact == some "serious").length +
     (l.filter fun v => v.impact == some "moderate").length +
     (l.filter fun v => v.impact == some "minor").length ≤ l.length) ∧
    (((l.filter fun v => v.impact == some "critical").length +
      (l.filter fun v => v.impact == some "serious").length +
      (l.filter fun v => v.impact == some "moderate").length +
      (l.filter fun v => v.impact == some "minor").length = l.length) ↔
      ∀ v ∈ l, recognizedSeverity v.impact = true) := by
  induction l with
  | nil => simp
  | cons a l ih =>
    obtain ⟨ih1, ih2⟩ := ih
    have hstep : ∀ s : String,
        (List.filter (fun v => v.impact == some s) (a :: l)).length =
          (if a.impact = some s then 1 else 0) +
            (List.filter (fun v => v.impact == some s) l).length := by
      intro s
      by_cases h : a.impact = some s
      · simp [List.filter_cons, h]
        omega
      · simp [List.filter_cons, h]
    rw [hstep "critical", hstep "serious", hstep "moderate", hstep "minor",
      List.length_cons, List.forall_mem_cons]
    cases hrec : recognizedSeverity a.impact with
    | true =>
      have hor : ((a.impact = some "critical" ∨ a.impact = some "serious") ∨
          a.impact = some "moderate") ∨ a.impact = some "minor" := by
        simpa [recognizedSeverity] using hrec
      have hone : (if a.impact = some "critical" then 1 else 0) +
          (if a.impact = some "serious" then 1 else 0) +
          (if a.impact = some "moderate" then 1 else 0) +
          (if a.impact = some "minor" then 1 else 0) = 1 := by
        rcases hor with ((h | h) | h) | h <;> rw [h] <;> rfl
      refine ⟨by omega, ?_⟩
      constructor
      · intro hEq
        exact ⟨rfl, ih2.mp (by omega)⟩
      · rintro ⟨-, hP⟩
        have hsum := ih2.mpr hP
        omega
    | false =>
      have hneg : ((¬a.impact = some "critical" ∧ ¬a.impact = some "serious") ∧
          ¬a.impact = some "moderate") ∧ ¬a.impact = some "minor" := by
        simpa [recognizedSeverity] using hrec
      obtain ⟨⟨⟨hc, hs⟩, hm⟩, hmi⟩ := hneg
      rw [if_neg hc, if_neg hs, if_neg hm, if_neg hmi]
      refine ⟨by omega, ?_⟩
      constructor
      · intro hEq
        exfalso
        omega
      · rintro ⟨hfa, -⟩
        simp at hfa

/-- Claim C5: in the formatted summary the four severity-bucket counts sum to
at most `totalIssues`, with equality exactly when every violation's severity
is one of the four recognized strings; other or missing severities count in
the total but in no bucket. -/
theorem bucket_counts_vs_total (url ts : String) (results : AxeResults) :
    ((summaryOf url ts results).issuesBySeverity.critical +
     (summaryOf url ts results).issuesBySeverity.serious +
     (summaryOf url ts results).issuesBySeverity.moderate +
     (summaryOf url ts results).issuesBySeverity.minor ≤
       (summaryOf url ts results).totalIssues) ∧
    ((summaryOf url ts results).issuesBySeverity.critical +
     (summaryOf url ts results).issuesBySeverity.serious +
     (summaryOf url ts results).issuesBySeverity.moderate +
     (summaryOf url ts results).issuesBySeverity.minor =
       (summaryOf url ts results).totalIssues ↔
      ∀ v ∈ results.violations, recognizedSeverity v.impact = true) := by
  simpa [summaryOf] using bucket_sum_aux results.violations

/-- Claim C6: the formatted report has exactly as many violations as the raw
engine result, and each formatted violation has exactly as many nodes as the
corresponding raw violation. -/
theorem report_preserves_counts (args : ToolArgs) (ts : String) (results : AxeResults) :
    (formattedResultsOf args ts results).violations.length = results.violations.length ∧
    ∀ i : Nat,
      ((formattedResultsOf args ts results).violations[i]?.map fun fv => fv.nodes.length) =
      (results.violations[i]?.map fun v => v.nodes.length) := by
  constructor
  · simp [formattedResultsOf]
  · intro i
    show ((results.violations.map
        (formattedViolationOf (boolTruthy args.includeHtml)))[i]?.map
          fun fv => fv.nodes.length) = _
    rw [List.getElem?_map]
    cases results.violations[i]? with
    | none => rfl
    | some v => simp [formattedViolationOf]

/-- Claim C7: when `includeHtml` is falsy no formatted node carries a markup
field; when it is truthy every formatted node carries its raw node's markup
value unchanged. -/
theorem include_html_controls_markup (args : ToolArgs) (ts : String) (results : AxeResults) :
    (boolTruthy args.includeHtml = false →
      ∀ fv ∈ (formattedResultsOf args ts results).violations, ∀ n ∈ fv.nodes,
        n.html = none) ∧
    (boolTruthy args.includeHtml = true →
      ∀ i j : Nat,
        (((formattedResultsOf args ts results).violations[i]?.bind fun fv => fv.nodes[j]?).map
            fun n => n.html) =
        ((results.violations[i]?.bind fun v => v.nodes[j]?).map fun n => n.html)) := by
  constructor
  · intro h fv hfv n hn
    simp only [formattedResultsOf, List.mem_map] at hfv
    obtain ⟨v, hv, rfl⟩ := hfv
    simp only [formattedViolationOf, List.mem_map] at hn
    obtain ⟨m, hm, rfl⟩ := hn
    simp [formattedNodeOf, h]
  · intro h i j
    show (((results.violations.map
        (formattedViolationOf (boolTruthy args.includeHtml)))[i]?.bind
          fun fv => fv.nodes[j]?).map fun n => n.html) = _
    rw [List.getElem?_map]
    cases results.violations[i]? with
    | none => rfl
    | some v =>
      show ((((formattedViolationOf (boolTruthy args.includeHtml) v).nodes)[j]?.map
          fun n => n.html)) = ((v.nodes[j]?).map fun n => n.html)
      rw [show (formattedViolationOf (boolTruthy args.includeHtml) v).nodes =
          v.nodes.map (formattedNodeOf (boolTruthy args.includeHtml)) from rfl]
      rw [List.getElem?_map]
      cases v.nodes[j]? with
      | none => rfl
      | some n => simp [formattedNodeOf, h]

/-- Witness for C7 at a concrete request with `includeHtml` absent. -/
theorem include_html_controls_markup_witness :
    boolTruthy argsA.includeHtml = false ∧
    (∀ fv ∈ (formattedResultsOf argsA "t" emptyResults).violations, ∀ n ∈ fv.nodes,
      n.html = none) :=
  ⟨rfl, (include_html_controls_markup argsA "t" emptyResults).1 rfl⟩

/-- Claim C8, amended: a successful audit returns the report carrying the
request's `url` — the only request field echoed — together with the
timestamp, the reshaped findings, and the three scalar counts of passed,
incomplete and inapplicable checks. -/
theorem audit_success_response_shape (env : Env) (args : ToolArgs) (results : AxeResults)
    (hu : urlTruthy args.url = true)
    (h1 : env.launch = Except.ok ()) (h2 : env.newPage = Except.ok ())
    (h3 : env.setViewport 1280 800 = Except.ok ())
    (h4 : env.goto (args.url.getD "") 30000 = Except.ok ())
    (h5 : env.analyze (axeOptionsOf args) = Except.ok results)
    (h6 : env.close = Except.ok ()) :
    auditWebpage env args =
      (Except.ok
        { content := [{ type := "text"
                        text := env.stringifyReport
                          { url := args.url.getD ""
                            timestamp := env.timestamp
                            violations := results.violations.map
                              (formattedViolationOf (boolTruthy args.includeHtml))
                            passes := results.passes.length
                            incomplete := results.incomplete.length
                            inapplicable := results.inapplicable.length } }]
          isError := none },
       ⟨true, true, some (axeOptionsOf args)⟩) := by
  simp [auditWebpage, hu, auditTryBlock, h1, h2, h3, h4, h5, h6, formattedResultsOf]

/-- Witness for the amended C8 on a concrete all-success call. -/
theorem audit_success_response_shape_witness :
    urlTruthy argsA.url = true ∧
    auditWebpage (okEnv emptyResults) argsA =
      (Except.ok { content := [{ type := "text", text := "" }], isError := none },
       ⟨true, true, some { runOnly := none }⟩) := by
  refine ⟨by decide, ?_⟩
  have h := audit_success_response_shape (okEnv emptyResults) argsA emptyResults
    (by decide) rfl rfl rfl rfl rfl rfl
  rw [h]
  rfl

/-- Counterexample to C8 as stated: two requests for the same `url` that
differ in both `includeHtml` and `tags` can produce identical formatted
reports, so the report does not echo the request fields generally — only the
`url` is echoed. -/
theorem report_forgets_request_fields :
    argsA.includeHtml ≠ argsB.includeHtml ∧ argsA.tags ≠ argsB.tags ∧
    formattedResultsOf argsA "2026-01-01T00:00:00.000Z" emptyResults =
      formattedResultsOf argsB "2026-01-01T00:00:00.000Z" emptyResults :=
  ⟨by decide, by decide, by decide⟩

/-- Claim C9: the summary operation reads only `url` from its arguments — two
requests with the same `url` in the same environment (same raw engine result
and same clock) produce the same response and trace, whatever their `tags`
and `includeHtml` — and any rule-engine run it performs is unfiltered. -/
theorem summary_honors_only_url (env : Env) (a1 a2 : ToolArgs)
    (h : a1.url = a2.url) :
    getSummary env a1 = getSummary env a2 ∧
    ∀ opts ∈ (getSummary env a1).2.analyzeOpts, opts = { runOnly := none } := by
  constructor
  · unfold getSummary summaryTryBlock
    rw [h]
  · by_cases hu : urlTruthy a1.url = true
    · rw [summary_trace_eq env a1 hu]
      unfold summaryTryBlock
      cases h1 : env.launch <;> simp [h1]
      cases h2 : env.newPage <;> simp [h2]
      cases h3 : env.setViewport 1280 800 <;> simp [h3]
      cases h4 : env.goto (a1.url.getD "") 30000 <;> simp [h4]
      cases h5 : env.analyze { runOnly := none } <;> simp [h5]
      cases h6 : env.close <;> simp [h6]
    · have hu' : urlTruthy a1.url = false := by
        cases hq : urlTruthy a1.url
        · rfl
        · exact absurd hq hu
      simp [getSummary, hu']

/-- Witness for C9: same `url`, different `tags` and `includeHtml`, same
response. -/
theorem summary_honors_only_url_witness :
    argsA.url = argsB.url ∧
    getSummary (okEnv emptyResults) argsA = getSummary (okEnv emptyResults) argsB :=
  ⟨rfl, (summary_honors_only_url (okEnv emptyResults) argsA argsB rfl).1⟩

/-- The comparator model is total. -/
theorem impactLe_total (a b : AxeViolation) : impactLe a b || impactLe b a := by
  simp only [impactLe, Bool.or_eq_true, decide_eq_true_eq]
  exact Nat.le_total _ _

/-- The comparator model is transitive. -/
theorem impactLe_trans (a b c : AxeViolation) :
    impactLe a b → impactLe b c → impactLe a c := by
  simp only [impactLe, decide_eq_true_eq]
  exact Nat.le_trans

/-- Stability of the modelled sort: filtering one severity class commutes
with sorting, so engine order is preserved inside a bucket. -/
theorem mergeSort_filter_rank_eq (l : List AxeViolation) (k : Nat) :
    (l.mergeSort impactLe).filter (fun v => impactRank v.impact == some k) =
      l.filter (fun v => impactRank v.impact == some k) := by
  have hpw : (l.filter (fun v => impactRank v.impact == some k)).Pairwise
      (fun a b => impactLe a b = true) := by
    apply List.pairwise_of_forall_mem_list
    intro a ha b hb
    have ha' := List.of_mem_filter ha
    have hb' := List.of_mem_filter hb
    simp only [beq_iff_eq] at ha' hb'
    simp [impactLe, ha', hb']
  have hsub : List.Sublist (l.filter (fun v => impactRank v.impact == some k))
      (l.mergeSort impactLe) :=
    List.sublist_mergeSort impactLe_trans impactLe_total hpw (List.filter_sublist l)
  have hperm : List.Perm
      ((l.mergeSort impactLe).filter (fun v => impactRank v.impact == some k))
      (l.filter (fun v => impactRank v.impact == some k)) :=
    (List.mergeSort_perm l impactLe).filter _
  have hA : List.Sublist (l.filter (fun v => impactRank v.impact == some k))
      ((l.mergeSort impactLe).filter (fun v => impactRank v.impact == some k)) := by
    have h1 := hsub.filter (fun v => impactRank v.impact == some k)
    rwa [List.filter_eq_self.mpr (fun a ha => (List.mem_filter.mp ha).2)] at h1
  exact (hA.eq_of_length hperm.length_eq.symm).symm

/-- Claim C4: on violation lists whose impacts are all recognized — the only
lists on which the claim's severity rank is defined and the JavaScript
comparator is NaN-free — `topIssues` has length `min 5 totalIssues`, is
non-decreasing in the severity rank, and its portion of each severity bucket
is a prefix of that bucket's engine-ordered violations. -/
theorem top_issues_sorted_and_stable (url ts : String) (results : AxeResults)
    (h : ∀ v ∈ results.violations, recognizedSeverity v.impact = true) :
    (summaryOf url ts results).topIssues.length =
      min 5 (summaryOf url ts results).totalIssues ∧
    (summaryOf url ts results).topIssues.Pairwise
      (fun a b => ∃ x y, impactRank a.impact = some x ∧ impactRank b.impact = some y ∧
        x ≤ y) ∧
    ∀ k : Nat,
      (summaryOf url ts results).topIssues.filter
          (fun t => impactRank t.impact == some k) <+:
        (results.violations.filter (fun v => impactRank v.impact == some k)).map
          topIssueOf := by
  have hsome : ∀ v ∈ results.violations, ∃ x, impactRank v.impact = some x := by
    intro v hv
    have hv' := h v hv
    have hor : ((v.impact = some "critical" ∨ v.impact = some "serious") ∨
        v.impact = some "moderate") ∨ v.impact = some "minor" := by
      simpa [recognizedSeverity] using hv'
    rcases hor with ((h' | h') | h') | h' <;> rw [h'] <;> exact ⟨_, rfl⟩
  refine ⟨?_, ?_, ?_⟩
  · show (((results.violations.mergeSort impactLe).take 5).map topIssueOf).length =
      min 5 results.violations.length
    rw [List.length_map, List.length_take, List.length_mergeSort]
  · have hpairS : (results.violations.mergeSort impactLe).Pairwise
        (fun a b => impactLe a b = true) :=
      List.sorted_mergeSort impactLe_trans impactLe_total _
    have htake : ((results.violations.mergeSort impactLe).take 5).Pairwise
        (fun a b => impactLe a b = true) :=
      List.Pairwise.sublist (List.take_sublist 5 _) hpairS
    show (((results.violations.mergeSort impactLe).take 5).map topIssueOf).Pairwise _
    rw [List.pairwise_map]
    refine List.Pairwise.imp_of_mem ?_ htake
    intro a b ha hb hab
    have ha' : a ∈ results.violations := by
      have := (List.take_sublist 5 _).subset ha
      simpa using this
    have hb' : b ∈ results.violations := by
      have := (List.take_sublist 5 _).subset hb
      simpa using this
    obtain ⟨x, hx⟩ := hsome a ha'
    obtain ⟨y, hy⟩ := hsome b hb'
    exact ⟨x, y, hx, hy, by simpa [impactLe, hx, hy] using hab⟩
  · intro k
    show (((results.violations.mergeSort impactLe).take 5).map topIssueOf).filter
        (fun t => impactRank t.impact == some k) <+: _
    rw [List.filter_map]
    have hcomp : ((fun t : TopIssue => impactRank t.impact == some k) ∘ topIssueOf) =
        (fun v : AxeViolation => impactRank v.impact == some k) := rfl
    rw [hcomp]
    have hpre : ((results.violations.mergeSort impactLe).take 5).filter
        (fun v => impactRank v.impact == some k) <+:
        (results.violations.mergeSort impactLe).filter
          (fun v => impactRank v.impact == some k) :=
      ( List.take_prefix 5 _).filter _
    rw [mergeSort_filter_rank_eq] at hpre
    exact hpre.map topIssueOf

/-- A minimal raw violation used to build sample lists. -/
def sampleViolation (i : String) (impact : Option String) : AxeViolation :=
  { id := i, impact := impact, description := "d", helpUrl := "h", nodes := [] }

/-- A sample engine result whose six violations all carry recognized
severities, with ties inside the `critical` and `minor` buckets. -/
def sampleResults : AxeResults :=
  { violations := [sampleViolation "v1" (some "minor"), sampleViolation "v2" (some "critical"),
      sampleViolation "v3" (some "serious"), sampleViolation "v4" (some "critical"),
      sampleViolation "v5" (some "moderate"), sampleViolation "v6" (some "minor")]
    passes := []
    incomplete := []
    inapplicable := [] }

/-- Witness for C4 at a concrete all-recognized violation list. -/
theorem top_issues_sorted_and_stable_witness :
    (∀ v ∈ sampleResults.violations, recognizedSeverity v.impact = true) ∧
    ((summaryOf "u" "t" sampleResults).topIssues.length =
      min 5 (summaryOf "u" "t" sampleResults).totalIssues ∧
    (summaryOf "u" "t" sampleResults).topIssues.Pairwise
      (fun a b => ∃ x y, impactRank a.impact = some x ∧ impactRank b.impact = some y ∧
        x ≤ y) ∧
    ∀ k : Nat,
      (summaryOf "u" "t" sampleResults).topIssues.filter
          (fun t => impactRank t.impact == some k) <+:
        (sampleResults.violations.filter (fun v => impactRank v.impact == some k)).map
          topIssueOf) :=
  ⟨by decide, top_issues_sorted_and_stable "u" "t" sampleResults (by decide)⟩
